import Mathlib

/-!
Verification of the audit-event analysis pipeline: a shallow embedding of
`audit_analysis/rabbitmq_consumer_service.py` (sliding-window rate limiter,
detection rules, analysis-stage dispatcher, connection manager) and of
`notification_service/postgres_service.py` / `rabbitmq_consumer.py`
(idempotent persistence writer and persistence-stage dispatcher), together
with theorems settling the specification's claims about them.
-/

namespace Genesis

/-! ## String helpers (models of Python's `in`, `endswith`, `[:-1]`) -/

/-- Boolean test that `needle` is an initial run of `hay` (on character lists). -/
def charsMatchAt : List Char → List Char → Bool
  | [], _ => true
  | _ :: _, [] => false
  | a :: as, b :: bs => a == b && charsMatchAt as bs

/-- Helper for substring containment: does `needle` occur in `hay` (char lists)? -/
def subOccurs (needle : List Char) : List Char → Bool
  | [] => needle.isEmpty
  | c :: rest => charsMatchAt needle (c :: rest) || subOccurs needle rest

/-- Model of Python's case-sensitive substring containment `needle in hay`. -/
def strContains (hay needle : String) : Bool :=
  subOccurs needle.data hay.data

/-- Model of Python's `s.endswith(suffix)` for a single suffix. -/
def strEndsIn (s suffix : String) : Bool :=
  charsMatchAt suffix.data.reverse s.data.reverse

/-! ## Configuration constants (audit_analysis/config.py) -/

/-- Constant `FAILED_LOGIN_WINDOW_SECONDS = 60` from `audit_analysis/config.py`. -/
def FAILED_LOGIN_WINDOW_SECONDS : Int := 60

/-- Constant `FAILED_LOGIN_THRESHOLD = 3` from `audit_analysis/config.py`. -/
def FAILED_LOGIN_THRESHOLD : Int := 3

/-- Constant `SENSITIVE_FILES` from `audit_analysis/config.py`. -/
def SENSITIVE_FILES : List String :=
  ["/etc/sudoers", "/root/.ssh/authorized_keys", "/etc/shadow", "/etc/passwd"]

/-! ## Data model -/

/-- An inbound audit event as consumed from the `audit_events` queue. Every
field is optional because the Python code reads the decoded JSON dict with
`event.get(...)`. -/
structure Event where
  event_id : Option String := none
  timestamp : Option String := none
  event_type : Option String := none
  action_result : Option String := none
  user_id : Option String := none
  server_hostname : Option String := none
  resource : Option String := none
  source_service : Option String := none
  client_ip : Option String := none
deriving DecidableEq, Repr

/-- The fields of an alert payload that the claims constrain; the Python code
builds a larger dict, whose remaining entries do not influence control flow. -/
structure Alert where
  rule_id : String
  rule_name : String
  severity : String
  alert_type : String
  alert_name : String
deriving DecidableEq, Repr

/-- The ANLY-SEC-001 alert built by `_analyze_failed_login_attempts`. -/
def anlySec001Alert : Alert :=
  { rule_id := "ANLY-SEC-001"
    rule_name := "Failed Login Burst Detection"
    severity := "CRITICAL"
    alert_type := "SECURITY"
    alert_name := "Multiple Failed Login Attempts" }

/-- The ANLY-SEC-002 alert built by `_analyze_critical_file_modifications`. -/
def anlySec002Alert : Alert :=
  { rule_id := "ANLY-SEC-002"
    rule_name := "Sensitive File Modification Detection"
    severity := "CRITICAL"
    alert_type := "SECURITY"
    alert_name := "Sensitive File Modification Detected" }

/-- The dispatcher's acknowledge decision: `basic_ack`, `basic_nack(requeue=True)`
or `basic_nack(requeue=False)`. -/
inductive AckDecision where
  | Ack
  | NackRequeue
  | NackDrop
deriving DecidableEq, Repr

/-! ## Redis sorted-set model (redis_service + the pipeline of
`_analyze_failed_login_attempts`) -/

/-- One member/score pair of a Redis sorted set; scores are the unix-second
timestamps the analysis code writes. -/
structure ZEntry where
  member : String
  score : Int
deriving DecidableEq, Repr

/-- Redis `ZADD key {member: score}`: updates the member's score when it is
already present, otherwise appends it; returns the number of members added. -/
def zadd (s : List ZEntry) (member : String) (score : Int) : List ZEntry × Int :=
  if s.any (fun e => e.member == member) then
    (s.map (fun e => if e.member == member then ⟨member, score⟩ else e), 0)
  else
    (s ++ [⟨member, score⟩], 1)

/-- Redis `ZREMRANGEBYSCORE key lo hi` removes every entry whose score lies in
the closed interval `[lo, hi]` (both bounds inclusive, per the Redis
documentation); returns the remaining set and the number removed. -/
def zremrangebyscore (s : List ZEntry) (lo hi : Int) : List ZEntry × Int :=
  let kept := s.filter (fun e => !(decide (lo ≤ e.score) && decide (e.score ≤ hi)))
  (kept, s.length - kept.length)

/-- The atomic Redis pipeline issued by `_analyze_failed_login_attempts`
(lines 129-134): `zadd`, `zremrangebyscore(key, 0, now - window)`, `zcard`,
`expire(key, window + 60)`. `pipe.execute()` returns the list of the four step
results in order; `EXPIRE` yields 1 when the key exists and 0 otherwise. -/
def failedLoginPipeline (s : List ZEntry) (member : String) (now window : Int) :
    List ZEntry × List Int :=
  let r1 := zadd s member now
  let r2 := zremrangebyscore r1.1 0 (now - window)
  let zcardRes : Int := r2.1.length
  let expireRes : Int := if r2.1.isEmpty then 0 else 1
  (r2.1, [r1.2, r2.2, zcardRes, expireRes])

/-- The analysis service's Redis keyspace: each zset key maps to its entries. -/
abbrev Store := List (String × List ZEntry)

/-- Reading one sorted set out of the keyspace (missing key = empty set). -/
def storeGet (st : Store) (k : String) : List ZEntry :=
  match st.find? (fun p => p.1 == k) with
  | some p => p.2
  | none => []

/-- Writing one sorted set back into the keyspace. -/
def storeSet (st : Store) (k : String) (v : List ZEntry) : Store :=
  if st.any (fun p => p.1 == k) then
    st.map (fun p => if p.1 == k then (k, v) else p)
  else
    st ++ [(k, v)]

/-- The zset key `f"failed_logins_zset:{user_id}:{server_hostname}"`. -/
def zsetKey (user_id server_hostname : String) : String :=
  "failed_logins_zset:" ++ user_id ++ ":" ++ server_hostname

/-- Everything observable about one `_analyze_failed_login_attempts` call:
the keyspace afterwards, the pipeline's `results` list, the value
`current_attempts_in_window = results[-1]` the code compares to the threshold,
the alert payload built (if any), and the Python return value. -/
structure FailedLoginResult where
  store : Store
  results : List Int
  countUsed : Int
  alert : Option Alert
  retVal : Bool

/-- Model of `_analyze_failed_login_attempts` (rabbitmq_consumer_service.py
lines 114-192). `redisOk` is false when the Redis client is missing or the
pipeline raises a connection error (both paths return `False` without an
alert). `isoNow` and `now` are the two clock readings
(`current_iso_timestamp`, used as the zset member, and
`current_unix_timestamp`, used as the score); `publishOk` is the return value
of `_publish_alert` when an alert is published. The count compared against
`FAILED_LOGIN_THRESHOLD` is `results[-1]`, exactly as in the source. -/
def analyze_failed_login_attempts (redisOk : Bool) (st : Store)
    (user_id server_hostname : String) (isoNow : String) (now : Int)
    (publishOk : Bool) : FailedLoginResult :=
  if !redisOk then
    { store := st, results := [], countUsed := 0, alert := none, retVal := false }
  else
    let key := zsetKey user_id server_hostname
    let pr := failedLoginPipeline (storeGet st key) isoNow now FAILED_LOGIN_WINDOW_SECONDS
    let st2 := storeSet st key pr.1
    let count := pr.2.getLastD 0
    if FAILED_LOGIN_THRESHOLD ≤ count then
      { store := st2, results := pr.2, countUsed := count,
        alert := some anlySec001Alert, retVal := publishOk }
    else
      { store := st2, results := pr.2, countUsed := count,
        alert := none, retVal := false }

/-- Observable outcome of one `_analyze_critical_file_modifications` call. -/
structure FileModResult where
  alert : Option Alert
  retVal : Bool
deriving DecidableEq, Repr

/-- Model of `_analyze_critical_file_modifications` (lines 194-245): fires
when any configured sensitive path occurs in `resource` as a case-sensitive
substring; returns `_publish_alert`'s result on a match and `False` otherwise. -/
def analyze_critical_file_modifications (resource : String) (publishOk : Bool) :
    FileModResult :=
  if SENSITIVE_FILES.any (fun f => strContains resource f) then
    { alert := some anlySec002Alert, retVal := publishOk }
  else
    { alert := none, retVal := false }

/-- Everything observable about one analysis-stage `on_message_callback`
call: the ack decision, the keyspace afterwards, which rules were invoked,
the zset key handed to the rate limiter (when the login rule ran), and the
alert built (if any). -/
structure DispatchResult where
  decision : AckDecision
  store : Store
  failedLoginRuleCalled : Bool
  fileRuleCalled : Bool
  keyUsed : Option String
  alert : Option Alert

/-- Model of the analysis-stage `on_message_callback` (lines 248-293).
`decoded` is the result of `json.loads`: `none` models a `JSONDecodeError`
(nack without requeue, no rule runs). Missing `user_id`/`server_hostname`
fields are replaced by `'unknown'` via `event.get(..., 'unknown')`; a rule
returning `False` causes `basic_nack(requeue=True)`, and otherwise the
message is acked. -/
def on_message_callback (redisOk : Bool) (st : Store) (decoded : Option Event)
    (isoNow : String) (now : Int) (publishOk : Bool) : DispatchResult :=
  match decoded with
  | none =>
    { decision := .NackDrop, store := st, failedLoginRuleCalled := false,
      fileRuleCalled := false, keyUsed := none, alert := none }
  | some event =>
    let user_id := event.user_id.getD "unknown"
    let server_hostname := event.server_hostname.getD "unknown"
    let resource := event.resource.getD ""
    if event.event_type == some "user_login" && event.action_result == some "FAILURE" then
      let r := analyze_failed_login_attempts redisOk st user_id server_hostname isoNow now publishOk
      if r.retVal then
        { decision := .Ack, store := r.store, failedLoginRuleCalled := true,
          fileRuleCalled := false, keyUsed := some (zsetKey user_id server_hostname),
          alert := r.alert }
      else
        { decision := .NackRequeue, store := r.store, failedLoginRuleCalled := true,
          fileRuleCalled := false, keyUsed := some (zsetKey user_id server_hostname),
          alert := r.alert }
    else if event.event_type == some "file_modified" && event.action_result == some "MODIFIED" then
      let r := analyze_critical_file_modifications resource publishOk
      if r.retVal then
        { decision := .Ack, store := st, failedLoginRuleCalled := false,
          fileRuleCalled := true, keyUsed := none, alert := r.alert }
      else
        { decision := .NackRequeue, store := st, failedLoginRuleCalled := false,
          fileRuleCalled := true, keyUsed := none, alert := r.alert }
    else
      { decision := .Ack, store := st, failedLoginRuleCalled := false,
        fileRuleCalled := false, keyUsed := none, alert := none }

/-! ## Connection manager (`connect_rabbitmq_channels`, lines 20-84) -/

/-- Outcome of one step of the connection attempt. `chanClosedByBroker` is
pika's `ChannelClosedByBroker`, `amqpConnError` is `AMQPConnectionError`, and
`otherError` is any exception of another class (these land in the general
`except ChannelClosedByBroker` / `except Exception` handlers at lines 71/78). -/
inductive ConnectStep where
  | ok
  | amqpConnError
  | chanClosedByBroker
  | otherError
deriving DecidableEq, Repr

/-- What each operation of one `connect_rabbitmq_channels` attempt does:
`pika.BlockingConnection(...)`, `connection.channel()` for the consumer,
`queue_declare` of the consumer queue, `connection.channel()` for the
publisher, and `queue_declare` of the publisher queue. -/
structure ConnAttemptOutcome where
  connectResult : ConnectStep
  openConsumerChannelResult : ConnectStep
  declareConsumerResult : ConnectStep
  openPublisherChannelResult : ConnectStep
  declarePublisherResult : ConnectStep
deriving DecidableEq, Repr

/-- The module-level handles `connection` / `consumer_channel` /
`publisher_channel` after an attempt. -/
structure RmqGlobals where
  connection : Option Unit
  consumer_channel : Option Unit
  publisher_channel : Option Unit
deriving DecidableEq, Repr

/-- Everything observable about one `connect_rabbitmq_channels` attempt: the
three handles afterwards, the boolean reported to
`health_manager.set_rabbitmq_status`, whether `connection.close()` was invoked
during the attempt, and the function's return value. -/
structure ConnAttemptResult where
  globalsAfter : RmqGlobals
  healthReported : Option Bool
  connectionClosed : Bool
  success : Bool
deriving DecidableEq, Repr

/-- Model of `connect_rabbitmq_channels` (lines 20-84), mirroring its
try/except structure. The two inner `except ChannelClosedByBroker` handlers
around the `queue_declare` calls close the just-opened connection before
resetting the three handles; the outer handlers (`AMQPConnectionError`,
general `ChannelClosedByBroker`, general `Exception`) reset the handles and
report unhealthy but never call `connection.close()`. Exceptions raised by a
`queue_declare` that are not `ChannelClosedByBroker` escape the inner `try`
and land in the outer handlers. -/
def connect_rabbitmq_channels (o : ConnAttemptOutcome) : ConnAttemptResult :=
  match o.connectResult with
  | .ok =>
    match o.openConsumerChannelResult with
    | .ok =>
      match o.declareConsumerResult with
      | .ok =>
        match o.openPublisherChannelResult with
        | .ok =>
          match o.declarePublisherResult with
          | .ok =>
            { globalsAfter := ⟨some (), some (), some ()⟩,
              healthReported := some true, connectionClosed := false, success := true }
          | .chanClosedByBroker =>
            { globalsAfter := ⟨none, none, none⟩,
              healthReported := some false, connectionClosed := true, success := false }
          | _ =>
            { globalsAfter := ⟨none, none, none⟩,
              healthReported := some false, connectionClosed := false, success := false }
        | _ =>
          { globalsAfter := ⟨none, none, none⟩,
            healthReported := some false, connectionClosed := false, success := false }
      | .chanClosedByBroker =>
        { globalsAfter := ⟨none, none, none⟩,
          healthReported := some false, connectionClosed := true, success := false }
      | _ =>
        { globalsAfter := ⟨none, none, none⟩,
          healthReported := some false, connectionClosed := false, success := false }
    | _ =>
      { globalsAfter := ⟨none, none, none⟩,
        healthReported := some false, connectionClosed := false, success := false }
  | _ =>
    { globalsAfter := ⟨none, none, none⟩,
      healthReported := some false, connectionClosed := false, success := false }

/-- Did this attempt actually open a transport connection
(`pika.BlockingConnection` returned)? -/
def openedConnection (o : ConnAttemptOutcome) : Bool :=
  o.connectResult == ConnectStep.ok

/-! ## Idempotent persistence writer (notification_service/postgres_service.py)
and persistence-stage dispatcher (notification_service/rabbitmq_consumer.py) -/

/-- An alert payload as decoded from the `audit_alerts` queue. Scalar fields
are read with `.get(...)` except `timestamp`, which the writer reads with
`alert_payload['timestamp']` (a `KeyError` when missing). The nested
rule/actor/resource/metadata/raw-event dicts are serialized with `json.dumps`
into nullable JSONB columns (`raw_event_data` defaults to the empty dict in
its `.get`, so its NOT NULL constraint always holds), and a payload
without a `triggered_by` dict stores NULL in the nullable `client_ip` INET
column; neither can fail the insert, so those dicts are kept opaque here. -/
structure AlertPayload where
  alert_id : Option String := none
  correlation_id : Option String := none
  timestamp : Option String := none
  alert_name : Option String := none
  alert_type : Option String := none
  severity : Option String := none
  description : Option String := none
  source_service_name : Option String := none
  action_observed : Option String := none
deriving DecidableEq, Repr

/-- A stored row of the `alerts` table (the columns the claims constrain).
Per the schema created in `_create_alerts_table` (postgres_service.py lines
72-97), `alert_id` is the UUID primary key and `alert_name`, `alert_type` and
`severity` are NOT NULL, so committed rows always carry them. -/
structure AlertRow where
  alert_id : String
  timestamp : String
  alert_name : String
  alert_type : String
  severity : String
deriving DecidableEq, Repr

/-- Model of the normalization at postgres_service.py lines 151-154:
`if timestamp_str.endswith(('+00:00Z', '-00:00Z')): timestamp_str = timestamp_str[:-1]`. -/
def normalizeTimestampSuffix (s : String) : String :=
  if strEndsIn s "+00:00Z" || strEndsIn s "-00:00Z" then
    ⟨s.data.dropLast⟩
  else
    s

/-- Shape check for the 19-character `YYYY-MM-DDTHH:MM:SS` datetime body. -/
def isBasicDateTimeChars (l : List Char) : Bool :=
  (l.length == 19) &&
  (l.getD 0 ' ').isDigit && (l.getD 1 ' ').isDigit &&
  (l.getD 2 ' ').isDigit && (l.getD 3 ' ').isDigit &&
  ((l.getD 4 ' ') == '-') &&
  (l.getD 5 ' ').isDigit && (l.getD 6 ' ').isDigit &&
  ((l.getD 7 ' ') == '-') &&
  (l.getD 8 ' ').isDigit && (l.getD 9 ' ').isDigit &&
  ((l.getD 10 ' ') == 'T') &&
  (l.getD 11 ' ').isDigit && (l.getD 12 ' ').isDigit &&
  ((l.getD 13 ' ') == ':') &&
  (l.getD 14 ' ').isDigit && (l.getD 15 ' ').isDigit &&
  ((l.getD 16 ' ') == ':') &&
  (l.getD 17 ' ').isDigit && (l.getD 18 ' ').isDigit

/-- Shape check for the timezone designator `datetime.fromisoformat` accepts
after the datetime body: nothing, a lone `Z`, or a signed `HH:MM` offset. An
offset followed by a further trailing `Z` (as in `+00:00Z`) matches none of
these and is rejected by the parser. -/
def isOffsetChars : List Char → Bool
  | [] => true
  | ['Z'] => true
  | [sgn, a, b, colon, c, d] =>
    (sgn == '+' || sgn == '-') && a.isDigit && b.isDigit &&
    (colon == ':') && c.isDigit && d.isDigit
  | _ => false

/-- Model of the strings `datetime.datetime.fromisoformat` accepts among those
this pipeline produces: a well-formed datetime body followed by a well-formed
timezone designator. -/
def isValidIsoTimestamp (s : String) : Bool :=
  isBasicDateTimeChars (s.data.take 19) && isOffsetChars (s.data.drop 19)

/-- How one `insert_alert` call ends: a committed insert; a `UniqueViolation`
on the `alert_id` primary key, which `insert_alert` re-raises for the consumer
to handle; or `False`, the value `insert_alert` returns after swallowing a
`KeyError` (missing `timestamp`), a timestamp-parse error, or any other
database error. -/
inductive InsertOutcome where
  | inserted
  | uniqueViolation
  | returnedFalse
deriving DecidableEq, Repr

/-- Hexadecimal digit check for the UUID column model. -/
def hexDigit (c : Char) : Bool :=
  c.isDigit || ('a' ≤ c && c ≤ 'f') || ('A' ≤ c && c ≤ 'F')

/-- Model of the PostgreSQL `UUID` column type for the values this pipeline
produces (`str(uuid.uuid4())` and its test fixtures): the canonical
hyphenated 8-4-4-4-12 hexadecimal form. A string the `uuid` input function
rejects raises `InvalidTextRepresentation` at the insert. -/
def isValidUuidChars (l : List Char) : Bool :=
  (l.length == 36) &&
  (List.range 36).all (fun i =>
    if i == 8 || i == 13 || i == 18 || i == 23 then
      (l.getD i ' ') == '-'
    else
      hexDigit (l.getD i ' '))

/-- The row a successful `INSERT INTO alerts` commits: primary key `id`,
(normalized) timestamp `ts`, and the three NOT NULL columns. -/
def insertedRow (id ts alert_name alert_type severity : String) : AlertRow :=
  { alert_id := id, timestamp := ts, alert_name := alert_name,
    alert_type := alert_type, severity := severity }

/-- Model of `PostgreSQLService.insert_alert` (postgres_service.py lines
137-228) against the `alerts` schema created at lines 72-97: read
`alert_payload['timestamp']` (a missing key is a `KeyError`, caught at line
223, returning `False`), normalize the suffix, parse (a parse error lands in
the generic handler, returning `False`), then `INSERT`. The schema types
`alert_id` and `correlation_id` as `UUID` (a missing value violates NOT NULL,
a non-UUID string raises `InvalidTextRepresentation`) and declares
`alert_name VARCHAR(255)`, `alert_type VARCHAR(50)` and
`severity VARCHAR(50)` NOT NULL (a missing value raises `NotNullViolation`,
an over-long one `StringDataRightTruncation`); each of these lands in the
`except Exception` handler at line 226 and returns `False`. Input typing
errors precede constraint checks, and NOT NULL/length checks precede the
unique-index update; a duplicate `alert_id` raises `UniqueViolation`, which
is re-raised (line 216) with the table unchanged. -/
def insert_alert (db : List AlertRow) (p : AlertPayload) :
    List AlertRow × InsertOutcome :=
  match p.timestamp with
  | none => (db, .returnedFalse)
  | some ts0 =>
    let ts := normalizeTimestampSuffix ts0
    if isValidIsoTimestamp ts then
      match p.alert_id, p.correlation_id with
      | some id, some cid =>
        if isValidUuidChars id.data && isValidUuidChars cid.data then
          match p.alert_name, p.alert_type, p.severity with
          | some nm, some ty, some sv =>
            if decide (nm.length ≤ 255) && decide (ty.length ≤ 50) &&
                decide (sv.length ≤ 50) then
              if db.any (fun r => r.alert_id == id) then
                (db, .uniqueViolation)
              else
                (db ++ [insertedRow id ts nm ty sv], .inserted)
            else
              (db, .returnedFalse)
          | _, _, _ => (db, .returnedFalse)
        else
          (db, .returnedFalse)
      | _, _ => (db, .returnedFalse)
    else
      (db, .returnedFalse)

/-- Model of the persistence-stage `RabbitMQConsumer.on_message_callback`
(rabbitmq_consumer.py lines 124-158). `decoded` is the result of
`json.loads`: `none` models a `JSONDecodeError` (nack without requeue, the
writer is never called). Otherwise `insert_alert` runs: `True` acks,
`UniqueViolation` is caught and acks (line 147-149), and `False` nacks with
`requeue=True` (line 145). Returns the table, the ack decision, and whether
the writer was called. -/
def persist_on_message (db : List AlertRow) (decoded : Option AlertPayload) :
    List AlertRow × AckDecision × Bool :=
  match decoded with
  | none => (db, .NackDrop, false)
  | some p =>
    let r := insert_alert db p
    match r.2 with
    | .inserted => (r.1, .Ack, true)
    | .uniqueViolation => (r.1, .Ack, true)
    | .returnedFalse => (r.1, .NackRequeue, true)

/-! ## Concrete inputs used by the theorems -/

/-- A failed-login event for user `alice` on host `h1`. -/
def aliceEvent : Event :=
  { event_id := some "evt-1"
    timestamp := some "2025-06-01T12:00:00+00:00Z"
    event_type := some "user_login"
    action_result := some "FAILURE"
    user_id := some "alice"
    server_hostname := some "h1"
    source_service := some "auth_service"
    client_ip := some "192.0.2.1" }

/-- A sensitive-file modification event. -/
def fileEvent : Event :=
  { event_id := some "evt-2"
    timestamp := some "2025-06-01T12:00:00+00:00Z"
    event_type := some "file_modified"
    action_result := some "MODIFIED"
    user_id := some "root"
    server_hostname := some "h1"
    resource := some "/etc/passwd"
    source_service := some "fs_monitor" }

/-- A failed-login event missing both `user_id` and `server_hostname`. -/
def anonymousEvent : Event :=
  { event_id := some "evt-3"
    timestamp := some "2025-06-01T12:00:00+00:00Z"
    event_type := some "user_login"
    action_result := some "FAILURE" }

/-- A well-formed alert payload: canonical UUIDs in `alert_id` and
`correlation_id` (the analysis service fills both from `uuid.uuid4()`), the
NOT NULL fields present and within their VARCHAR limits, and the timestamp in
the analysis service's `+00:00Z` wire format. -/
def sampleAlertPayload : AlertPayload :=
  { alert_id := some "5d41c2a0-7c3e-4f5a-8b1d-000000000001"
    correlation_id := some "9b2f6c1e-3d4a-4e5f-9a0b-000000000002"
    timestamp := some "2025-06-01T12:00:00+00:00Z"
    alert_name := some "Multiple Failed Login Attempts"
    alert_type := some "SECURITY"
    severity := some "CRITICAL" }

/-- An alert payload with no `timestamp` key. -/
def noTimestampPayload : AlertPayload :=
  { alert_id := some "5d41c2a0-0000-4000-8000-000000000002"
    correlation_id := some "evt-2"
    alert_name := some "Sensitive File Modification Detected"
    severity := some "CRITICAL" }

/-- An alert payload whose timestamp carries a non-UTC explicit offset
followed by a redundant trailing `Z`. -/
def offsetZPayload : AlertPayload :=
  { alert_id := some "5d41c2a0-0000-4000-8000-000000000003"
    correlation_id := some "evt-3"
    timestamp := some "2025-06-01T12:00:00+01:00Z" }

/-! ## Helper lemmas -/

/-- An entry with a different member survives the `zadd` step unchanged. -/
theorem mem_zadd_of_ne (s : List ZEntry) (member : String) (score : Int)
    (e : ZEntry) (he : e ∈ s) (hm : e.member ≠ member) :
    e ∈ (zadd s member score).1 := by
  have hb : (e.member == member) = false := beq_eq_false_iff_ne.mpr hm
  unfold zadd
  split
  · exact List.mem_map.2 ⟨e, he, by simp [hb]⟩
  · exact List.mem_append_left _ he

/-- A list is an initial run of itself followed by anything. -/
theorem charsMatchAt_self_append (l t : List Char) : charsMatchAt l (l ++ t) = true := by
  induction l with
  | nil => rfl
  | cons a as ih => simp [charsMatchAt, ih]

/-- String concatenation acts on the underlying character lists. -/
theorem string_data_append (s t : String) : (s ++ t).data = s.data ++ t.data := rfl

/-- Appending a suffix makes `strEndsIn` with that suffix true. -/
theorem strEndsIn_append (d suf : String) : strEndsIn (d ++ suf) suf = true := by
  unfold strEndsIn
  rw [string_data_append, List.reverse_append]
  exact charsMatchAt_self_append _ _

/-- The normalization strips the final character of a string ending in `+00:00Z`. -/
theorem normalize_append_plus (d : String) :
    normalizeTimestampSuffix (d ++ "+00:00Z") = d ++ "+00:00" := by
  unfold normalizeTimestampSuffix
  rw [strEndsIn_append]
  simp only [Bool.true_or, if_true]
  show String.mk ((d ++ "+00:00Z").data.dropLast) = d ++ "+00:00"
  rw [string_data_append]
  have hz : "+00:00Z".data = "+00:00".data ++ ['Z'] := rfl
  rw [hz, ← List.append_assoc, List.dropLast_concat]
  rfl

/-- The normalization strips the final character of a string ending in `-00:00Z`. -/
theorem normalize_append_minus (d : String) :
    normalizeTimestampSuffix (d ++ "-00:00Z") = d ++ "-00:00" := by
  unfold normalizeTimestampSuffix
  rw [strEndsIn_append]
  simp only [Bool.or_true, if_true]
  show String.mk ((d ++ "-00:00Z").data.dropLast) = d ++ "-00:00"
  rw [string_data_append]
  have hz : "-00:00Z".data = "-00:00".data ++ ['Z'] := rfl
  rw [hz, ← List.append_assoc, List.dropLast_concat]
  rfl

/-- A character list passing the datetime-body check has exactly 19 characters. -/
theorem length_of_isBasicDateTimeChars {l : List Char}
    (h : isBasicDateTimeChars l = true) : l.length = 19 := by
  by_cases hl : l.length = 19
  · exact hl
  · have hb : (l.length == 19) = false := by
      simpa using hl
    rw [isBasicDateTimeChars, hb] at h
    simp at h

/-! ## Claim theorems -/

/-- C1: the value `_analyze_failed_login_attempts` compares against the
threshold is `results[-1]`, the result of the `expire` step (always 1 here),
not the post-prune cardinality `results[2]`. In the 3-failed-logins scenario
(threshold 3, window 60, three calls for `alice@h1` within 10 seconds) the
third call's post-prune cardinality is 3, yet the code compares 1 and
produces no ANLY-SEC-001 alert — contradicting the spec and the repository's
own unit tests, which read the count from the `zcard` position. -/
theorem failedLogin_count_uses_expire_result_not_zcard :
    (let r1 := analyze_failed_login_attempts true [] "alice" "h1"
        "2025-06-01T12:00:00+00:00" 1000 true
     let r2 := analyze_failed_login_attempts true r1.store "alice" "h1"
        "2025-06-01T12:00:05+00:00" 1005 true
     let r3 := analyze_failed_login_attempts true r2.store "alice" "h1"
        "2025-06-01T12:00:09+00:00" 1009 true
     r3.results.getD 2 0 = 3 ∧ r3.countUsed = 1 ∧
       r3.alert = none ∧ r3.retVal = false) := by
  decide

/-- C2: a `user_login`/`FAILURE` event whose in-window count is below the
threshold makes `_analyze_failed_login_attempts` return `False` — the same
value it returns when its Redis dependency fails — so the analysis-stage
dispatcher nack-requeues the message instead of acking it, even though the
rule ran to completion with a healthy Redis. This contradicts the spec and
the repository's tests, which expect `True` (and an ack) below threshold. -/
theorem belowThreshold_failedLogin_causes_nack_requeue :
    (on_message_callback true [] (some aliceEvent)
        "2025-06-01T12:00:00+00:00" 1000 true).decision = AckDecision.NackRequeue ∧
    (on_message_callback true [] (some aliceEvent)
        "2025-06-01T12:00:00+00:00" 1000 true).failedLoginRuleCalled = true ∧
    (on_message_callback true [] (some aliceEvent)
        "2025-06-01T12:00:00+00:00" 1000 true).alert = none := by
  decide

/-- C4 (counterexample): an entry scored exactly `now - windowSeconds` is
removed by the prune, not kept: `ZREMRANGEBYSCORE key 0 (now - window)` has an
inclusive upper bound, so with `now = 100`, `window = 60` an entry at score 40
disappears and the post-prune cardinality counts only the entry just added. -/
theorem prune_removes_boundary_entry :
    ((failedLoginPipeline [⟨"boundary", 40⟩] "member-at-100" 100 60).1.any
        (fun e => e.member == "boundary")) = false ∧
    (failedLoginPipeline [⟨"boundary", 40⟩] "member-at-100" 100 60).2.getD 2 0 = 1 := by
  decide

/-- C4 (amended): the prune removes exactly the pre-existing entries whose
score lies in the inclusive range `[0, now - windowSeconds]`; an entry
survives the pipeline if and only if its score is strictly greater than
`now - windowSeconds` (or negative, below the range's lower bound). -/
theorem prune_keeps_iff (s : List ZEntry) (member : String) (now window : Int)
    (e : ZEntry) (he : e ∈ s) (hm : e.member ≠ member) :
    e ∈ (failedLoginPipeline s member now window).1 ↔
      (e.score < 0 ∨ now - window < e.score) := by
  have hmem := mem_zadd_of_ne s member now e he hm
  unfold failedLoginPipeline zremrangebyscore
  simp only [List.mem_filter]
  constructor
  · rintro ⟨-, hp⟩
    simp only [Bool.not_eq_true', Bool.and_eq_false_iff, decide_eq_false_iff_not,
      not_le] at hp
    omega
  · intro hscore
    refine ⟨hmem, ?_⟩
    simp only [Bool.not_eq_true', Bool.and_eq_false_iff, decide_eq_false_iff_not,
      not_le]
    omega

/-- C4 (witness): a concrete entry strictly inside the window survives. -/
theorem prune_keeps_iff_witness :
    (⟨"recent", 50⟩ : ZEntry) ∈ (failedLoginPipeline [⟨"recent", 50⟩] "m100" 100 60).1 ↔
      ((50 : Int) < 0 ∨ (100 : Int) - 60 < 50) :=
  prune_keeps_iff [⟨"recent", 50⟩] "m100" 100 60 ⟨"recent", 50⟩ (by simp) (by decide)

/-- An attempt in which the connection opens but the consumer-queue
declaration raises an exception that is not `ChannelClosedByBroker` (for
example `ChannelWrongStateError`), landing in the general `except Exception`
handler at line 78. -/
def leakyOutcome : ConnAttemptOutcome :=
  { connectResult := .ok
    openConsumerChannelResult := .ok
    declareConsumerResult := .otherError
    openPublisherChannelResult := .ok
    declarePublisherResult := .ok }

/-- An attempt in which the consumer-queue declaration fails with
`ChannelClosedByBroker`, the case the inner handler closes the connection for. -/
def declFailOutcome : ConnAttemptOutcome :=
  { connectResult := .ok
    openConsumerChannelResult := .ok
    declareConsumerResult := .chanClosedByBroker
    openPublisherChannelResult := .ok
    declarePublisherResult := .ok }

/-- C5 (counterexample): when the declaration fails with an exception other
than `ChannelClosedByBroker`, the attempt has opened a connection and fails,
yet `connection.close()` is never called before the three handles are
discarded — the general exception handlers reset the references without
closing, so the claim that every failed attempt closes the connection it
opened is false. -/
theorem connect_discards_open_connection_without_close :
    openedConnection leakyOutcome = true ∧
    (connect_rabbitmq_channels leakyOutcome).success = false ∧
    (connect_rabbitmq_channels leakyOutcome).connectionClosed = false ∧
    (connect_rabbitmq_channels leakyOutcome).globalsAfter = ⟨none, none, none⟩ := by
  decide

/-- C5 (amended): every failed attempt resets all three handles to `None` and
reports unhealthy, and the connection is closed before the reset whenever a
queue declaration fails with `ChannelClosedByBroker` (the only failure class
the teardown handles); an unexpected exception after the connection opened
discards the handles without closing. -/
theorem connect_failure_resets_handles (o : ConnAttemptOutcome)
    (h : (connect_rabbitmq_channels o).success = false) :
    (connect_rabbitmq_channels o).globalsAfter = ⟨none, none, none⟩ ∧
    (connect_rabbitmq_channels o).healthReported = some false ∧
    ((o.connectResult = .ok ∧ o.openConsumerChannelResult = .ok ∧
        o.declareConsumerResult = .chanClosedByBroker) →
      (connect_rabbitmq_channels o).connectionClosed = true) ∧
    ((o.connectResult = .ok ∧ o.openConsumerChannelResult = .ok ∧
        o.declareConsumerResult = .ok ∧ o.openPublisherChannelResult = .ok ∧
        o.declarePublisherResult = .chanClosedByBroker) →
      (connect_rabbitmq_channels o).connectionClosed = true) := by
  rcases o with ⟨c, oc, dc, op, dp⟩
  cases c <;> cases oc <;> cases dc <;> cases op <;> cases dp <;>
    simp_all [connect_rabbitmq_channels]

/-- C5 (witness): the amended statement at a concrete failing attempt. -/
theorem connect_failure_resets_handles_witness :
    (connect_rabbitmq_channels declFailOutcome).globalsAfter = ⟨none, none, none⟩ ∧
    (connect_rabbitmq_channels declFailOutcome).healthReported = some false ∧
    ((declFailOutcome.connectResult = .ok ∧
        declFailOutcome.openConsumerChannelResult = .ok ∧
        declFailOutcome.declareConsumerResult = .chanClosedByBroker) →
      (connect_rabbitmq_channels declFailOutcome).connectionClosed = true) ∧
    ((declFailOutcome.connectResult = .ok ∧
        declFailOutcome.openConsumerChannelResult = .ok ∧
        declFailOutcome.declareConsumerResult = .ok ∧
        declFailOutcome.openPublisherChannelResult = .ok ∧
        declFailOutcome.declarePublisherResult = .chanClosedByBroker) →
      (connect_rabbitmq_channels declFailOutcome).connectionClosed = true) :=
  connect_failure_resets_handles declFailOutcome (by decide)

/-- C6: a message body that fails JSON decoding makes both dispatchers nack
without requeue, with no detection rule invoked at the analysis stage and no
persistence-writer call at the persistence stage (and no state change). -/
theorem malformed_json_nack_drop_no_calls (redisOk : Bool) (st : Store)
    (isoNow : String) (now : Int) (publishOk : Bool) (db : List AlertRow) :
    on_message_callback redisOk st none isoNow now publishOk =
      { decision := .NackDrop, store := st, failedLoginRuleCalled := false,
        fileRuleCalled := false, keyUsed := none, alert := none } ∧
    persist_on_message db none = (db, AckDecision.NackDrop, false) :=
  ⟨rfl, rfl⟩

/-- C7 (counterexample): a persistence-stage message that decodes as JSON but
has no `timestamp` field is nack-requeued, not dropped — the `KeyError` is
swallowed inside `insert_alert`, which returns `False`, and the consumer
treats that as a transient write failure (`requeue=True`). -/
theorem missing_timestamp_is_requeued_not_dropped :
    persist_on_message [] (some noTimestampPayload) =
      ([], AckDecision.NackRequeue, true) ∧
    AckDecision.NackRequeue ≠ AckDecision.NackDrop := by
  decide

/-- C7 (amended): a decoded persistence-stage message missing the required
`timestamp` field causes `insert_alert` to return `False` with the table
unchanged, and the dispatcher then nacks the message with `requeue=True`
(retrying it), rather than dropping it as malformed. -/
theorem missing_timestamp_nack_requeue (db : List AlertRow) (p : AlertPayload)
    (h : p.timestamp = none) :
    insert_alert db p = (db, InsertOutcome.returnedFalse) ∧
    persist_on_message db (some p) = (db, AckDecision.NackRequeue, true) := by
  have h1 : insert_alert db p = (db, InsertOutcome.returnedFalse) := by
    unfold insert_alert
    rw [h]
  refine ⟨h1, ?_⟩
  simp only [persist_on_message, h1]

/-- C7 (witness): the amended statement at a concrete payload. -/
theorem missing_timestamp_nack_requeue_witness :
    insert_alert [] noTimestampPayload = ([], InsertOutcome.returnedFalse) ∧
    persist_on_message [] (some noTimestampPayload) =
      ([], AckDecision.NackRequeue, true) :=
  missing_timestamp_nack_requeue [] noTimestampPayload rfl

/-- C8 (counterexample): a timestamp carrying a non-UTC explicit offset and a
redundant trailing `Z` is left untouched by the normalization (which only
matches the suffixes `+00:00Z` and `-00:00Z`), does not parse, and makes the
insert fail — so the normalization does not apply whenever an explicit offset
is present. -/
theorem offset_with_trailing_z_not_normalized :
    normalizeTimestampSuffix "2025-06-01T12:00:00+01:00Z" =
      "2025-06-01T12:00:00+01:00Z" ∧
    isValidIsoTimestamp "2025-06-01T12:00:00+01:00Z" = false ∧
    insert_alert [] offsetZPayload = ([], InsertOutcome.returnedFalse) := by
  decide

/-- C8 (amended): the writer strips the redundant trailing `Z` exactly when
the timestamp ends in `+00:00Z` or `-00:00Z` (a zero UTC offset followed by
`Z`), and for any well-formed 19-character datetime body the normalized
result is a valid ISO-8601 timestamp. -/
theorem normalize_strips_z_after_utc_offset (d : String)
    (h : isBasicDateTimeChars d.data = true) :
    normalizeTimestampSuffix (d ++ "+00:00Z") = d ++ "+00:00" ∧
    isValidIsoTimestamp (d ++ "+00:00") = true ∧
    normalizeTimestampSuffix (d ++ "-00:00Z") = d ++ "-00:00" ∧
    isValidIsoTimestamp (d ++ "-00:00") = true := by
  have hlen : d.data.length = 19 := length_of_isBasicDateTimeChars h
  refine ⟨normalize_append_plus d, ?_, normalize_append_minus d, ?_⟩
  · unfold isValidIsoTimestamp
    rw [string_data_append, List.take_left' hlen, List.drop_left' hlen, h]
    decide
  · unfold isValidIsoTimestamp
    rw [string_data_append, List.take_left' hlen, List.drop_left' hlen, h]
    decide

/-- C8 (witness): the amended statement at a concrete datetime body. -/
theorem normalize_strips_z_after_utc_offset_witness :
    normalizeTimestampSuffix ("2025-06-01T12:00:00" ++ "+00:00Z") =
      "2025-06-01T12:00:00" ++ "+00:00" ∧
    isValidIsoTimestamp ("2025-06-01T12:00:00" ++ "+00:00") = true ∧
    normalizeTimestampSuffix ("2025-06-01T12:00:00" ++ "-00:00Z") =
      "2025-06-01T12:00:00" ++ "-00:00" ∧
    isValidIsoTimestamp ("2025-06-01T12:00:00" ++ "-00:00") = true :=
  normalize_strips_z_after_utc_offset "2025-06-01T12:00:00" (by decide)

/-- C10: the analysis-stage dispatcher substitutes the literal `unknown` for
a missing `user_id` or `server_hostname`, so every failed-login event missing
both fields is counted against the single rate-limiter subject key
`failed_logins_zset:unknown:unknown`. -/
theorem missing_user_or_host_uses_unknown_key (e : Event) (redisOk : Bool)
    (st : Store) (isoNow : String) (now : Int) (publishOk : Bool)
    (hu : e.user_id = none) (hh : e.server_hostname = none)
    (ht : e.event_type = some "user_login") (ha : e.action_result = some "FAILURE") :
    (on_message_callback redisOk st (some e) isoNow now publishOk).keyUsed =
      some "failed_logins_zset:unknown:unknown" ∧
    (on_message_callback redisOk st (some e) isoNow now publishOk).failedLoginRuleCalled
      = true := by
  simp only [on_message_callback, hu, hh, ht, ha, Option.getD_none,
    beq_self_eq_true, Bool.and_self, if_true]
  refine ⟨?_, ?_⟩ <;> split <;> rfl

/-- C10 (witness): a concrete failed-login event with neither field present
lands on the shared `unknown` subject key. -/
theorem missing_user_or_host_uses_unknown_key_witness :
    (on_message_callback true [] (some anonymousEvent) "t" 1000 true).keyUsed =
      some "failed_logins_zset:unknown:unknown" ∧
    (on_message_callback true [] (some anonymousEvent) "t" 1000 true).failedLoginRuleCalled
      = true :=
  missing_user_or_host_uses_unknown_key anonymousEvent true [] "t" 1000 true
    rfl rfl rfl rfl

/-- C3: inserting the same alert twice leaves exactly one row for its
`alert_id`: for a payload the schema admits (canonical UUID `alert_id` and
`correlation_id`, parseable timestamp, and the NOT NULL columns `alert_name`,
`alert_type`, `severity` present within their VARCHAR limits), the first call
commits the row, the second raises a `UniqueViolation` on the primary key
with the table unchanged, and the persistence-stage dispatcher catches it and
acks the message instead of treating it as a write error. -/
theorem insert_alert_idempotent (db : List AlertRow) (p : AlertPayload)
    (id cid ts nm ty sv : String) (hid : p.alert_id = some id)
    (hc : p.correlation_id = some cid) (hts : p.timestamp = some ts)
    (hidu : isValidUuidChars id.data = true)
    (hcu : isValidUuidChars cid.data = true)
    (hvalid : isValidIsoTimestamp (normalizeTimestampSuffix ts) = true)
    (hnm : p.alert_name = some nm) (hty : p.alert_type = some ty)
    (hsv : p.severity = some sv)
    (hnml : nm.length ≤ 255) (htyl : ty.length ≤ 50) (hsvl : sv.length ≤ 50)
    (hfresh : db.any (fun r => r.alert_id == id) = false) :
    insert_alert db p =
      (db ++ [insertedRow id (normalizeTimestampSuffix ts) nm ty sv],
       InsertOutcome.inserted) ∧
    (insert_alert (insert_alert db p).1 p).2 = InsertOutcome.uniqueViolation ∧
    (insert_alert (insert_alert db p).1 p).1 = (insert_alert db p).1 ∧
    ((insert_alert (insert_alert db p).1 p).1.filter
        (fun r => r.alert_id == id)).length = 1 ∧
    (persist_on_message (insert_alert db p).1 (some p)).2.1 = AckDecision.Ack := by
  have h1 : insert_alert db p =
      (db ++ [insertedRow id (normalizeTimestampSuffix ts) nm ty sv],
       InsertOutcome.inserted) := by
    simp [insert_alert, hts, hid, hc, hidu, hcu, hvalid, hnm, hty, hsv,
      hnml, htyl, hsvl, hfresh]
  have hany : (db ++ [insertedRow id (normalizeTimestampSuffix ts) nm ty sv]).any
      (fun r => r.alert_id == id) = true := by
    simp [List.any_append, hfresh, insertedRow]
  have h2 : insert_alert (db ++ [insertedRow id (normalizeTimestampSuffix ts) nm ty sv]) p =
      (db ++ [insertedRow id (normalizeTimestampSuffix ts) nm ty sv],
       InsertOutcome.uniqueViolation) := by
    simp [insert_alert, hts, hid, hc, hidu, hcu, hvalid, hnm, hty, hsv,
      hnml, htyl, hsvl, hany]
  have hdbnil : db.filter (fun r => r.alert_id == id) = [] := by
    rw [List.filter_eq_nil_iff]
    intro a ha hcontra
    have hx : db.any (fun r => r.alert_id == id) = true :=
      List.any_eq_true.mpr ⟨a, ha, hcontra⟩
    rw [hfresh] at hx
    exact Bool.false_ne_true hx
  have h3 : ((db ++ [insertedRow id (normalizeTimestampSuffix ts) nm ty sv]).filter
      (fun r => r.alert_id == id)).length = 1 := by
    rw [List.filter_append, hdbnil]
    simp [insertedRow]
  have h4 : persist_on_message (db ++ [insertedRow id (normalizeTimestampSuffix ts) nm ty sv])
      (some p) =
      (db ++ [insertedRow id (normalizeTimestampSuffix ts) nm ty sv],
       AckDecision.Ack, true) := by
    simp only [persist_on_message, h2]
  refine ⟨h1, ?_, ?_, ?_, ?_⟩
  · simp only [h1, h2]
  · simp only [h1, h2]
  · simp only [h1, h2]
    exact h3
  · simp only [h1, h4]

/-- C3 (witness): the idempotence statement at a concrete schema-valid alert
payload. -/
theorem insert_alert_idempotent_witness :
    insert_alert [] sampleAlertPayload =
      ([insertedRow "5d41c2a0-7c3e-4f5a-8b1d-000000000001"
          (normalizeTimestampSuffix "2025-06-01T12:00:00+00:00Z")
          "Multiple Failed Login Attempts" "SECURITY" "CRITICAL"],
       InsertOutcome.inserted) ∧
    (insert_alert (insert_alert [] sampleAlertPayload).1 sampleAlertPayload).2 =
      InsertOutcome.uniqueViolation ∧
    (insert_alert (insert_alert [] sampleAlertPayload).1 sampleAlertPayload).1 =
      (insert_alert [] sampleAlertPayload).1 ∧
    ((insert_alert (insert_alert [] sampleAlertPayload).1 sampleAlertPayload).1.filter
        (fun r => r.alert_id == "5d41c2a0-7c3e-4f5a-8b1d-000000000001")).length = 1 ∧
    (persist_on_message (insert_alert [] sampleAlertPayload).1
        (some sampleAlertPayload)).2.1 = AckDecision.Ack := by
  have h := insert_alert_idempotent [] sampleAlertPayload
    "5d41c2a0-7c3e-4f5a-8b1d-000000000001" "9b2f6c1e-3d4a-4e5f-9a0b-000000000002"
    "2025-06-01T12:00:00+00:00Z" "Multiple Failed Login Attempts" "SECURITY" "CRITICAL"
    rfl rfl rfl (by decide) (by decide) (by decide) rfl rfl rfl
    (by decide) (by decide) (by decide) rfl
  simpa using h

/-- C9: the sensitive-file rule is invoked exactly for
`file_modified`/`MODIFIED` events; it produces the ANLY-SEC-002
CRITICAL/SECURITY alert exactly when some configured sensitive path occurs in
the event's `resource` as a case-sensitive substring; in particular
`/etc/passwd` (a member of the configured list) fires and `/var/log/syslog`
does not. -/
theorem sensitive_file_rule_guard_and_substring_match :
    (∀ (redisOk : Bool) (st : Store) (e : Event) (isoNow : String) (now : Int)
        (publishOk : Bool),
      (on_message_callback redisOk st (some e) isoNow now publishOk).fileRuleCalled
          = true ↔
        (e.event_type = some "file_modified" ∧ e.action_result = some "MODIFIED")) ∧
    (∀ (resource : String) (publishOk : Bool),
      ((analyze_critical_file_modifications resource publishOk).alert =
          some anlySec002Alert ↔
        SENSITIVE_FILES.any (fun f => strContains resource f) = true) ∧
      ((analyze_critical_file_modifications resource publishOk).alert = none ↔
        SENSITIVE_FILES.any (fun f => strContains resource f) = false)) ∧
    anlySec002Alert.rule_id = "ANLY-SEC-002" ∧
    anlySec002Alert.severity = "CRITICAL" ∧
    anlySec002Alert.alert_type = "SECURITY" ∧
    "/etc/passwd" ∈ SENSITIVE_FILES ∧
    (analyze_critical_file_modifications "/etc/passwd" true).alert =
      some anlySec002Alert ∧
    (analyze_critical_file_modifications "/var/log/syslog" true).alert = none ∧
    (on_message_callback true [] (some fileEvent) "t" 1000 true).alert =
      some anlySec002Alert ∧
    (on_message_callback true [] (some fileEvent) "t" 1000 true).decision =
      AckDecision.Ack := by
  refine ⟨?_, ?_, rfl, rfl, rfl, by decide, by decide, by decide, by decide, by decide⟩
  · intro redisOk st e isoNow now publishOk
    cases hb1 : (e.event_type == some "user_login" && e.action_result == some "FAILURE") with
    | true =>
      have h1' : e.event_type = some "user_login" ∧ e.action_result = some "FAILURE" := by
        simpa [Bool.and_eq_true, beq_iff_eq] using hb1
      constructor
      · intro hcalled
        exfalso
        revert hcalled
        simp only [on_message_callback, hb1]
        simp only [if_true]
        split <;> simp
      · rintro ⟨hft, -⟩
        rw [h1'.1] at hft
        exact absurd hft (by simp)
    | false =>
      cases hb2 : (e.event_type == some "file_modified" && e.action_result == some "MODIFIED") with
      | true =>
        have h2' : e.event_type = some "file_modified" ∧ e.action_result = some "MODIFIED" := by
          simpa [Bool.and_eq_true, beq_iff_eq] using hb2
        constructor
        · intro _
          exact h2'
        · intro _
          simp only [on_message_callback, hb1, hb2]
          simp only [Bool.false_eq_true, if_false, if_true]
          split <;> rfl
      | false =>
        constructor
        · intro hcalled
          exfalso
          revert hcalled
          simp only [on_message_callback, hb1, hb2]
          simp only [Bool.false_eq_true, if_false]
          simp
        · rintro ⟨hft, hfa⟩
          rw [hft, hfa] at hb2
          simp at hb2
  · intro resource publishOk
    constructor
    · unfold analyze_critical_file_modifications
      split <;> simp_all
    · unfold analyze_critical_file_modifications
      split <;> simp_all

end Genesis
